import Mathlib

/-!
# Verification of the molecular-biology concept mapper pipeline

Shallow embedding of `src/build_educational_model.py` (class
`MolecularBiologyConceptMapper`): the concept tagger
`extract_biology_concepts`, the file-processing loop `process_pdb_files`,
the aggregator `generate_concept_map`, and the lesson-template generator
`create_lesson_template`.

Modelling notes, tied to the source:
* The tagger reads a handful of JSON fields.  Each field access that can
  raise a Python exception is represented explicitly: `structOk` is false
  when `pdb_data['struct']` is present but not a dict (so `.get('title')`
  raises; a *missing* `struct` section defaults to title `""` and does not
  raise), `PolyField.malformed` when `int(entry_info.get(...))` raises,
  `exptlOk` false when `pdb_data.get('exptl', [{}])[0].get('method','')`
  raises (e.g. `exptl` is an empty list), `reflnsOk` false when
  `pdb_data.get('reflns', [{}])[0]` raises, and `ResField.malformed` when
  `float(...)` raises on a truthy `d_resolution_high` value.
* The whole body of `extract_biology_concepts` sits in one
  `try/except Exception` whose handler prints and falls through to
  `return concepts`: an exception returns the partially built record, with
  no deduplication/sorting applied.  The embedding models this by
  returning the accumulated state at the first failing access.
* Python floats are modelled as rationals; the comparisons used by the
  code (`> 0`, `< 2.0`) agree with rational comparison on all inputs the
  claims touch.
* Python's `sorted` is a stable sort; a stable sort for a fixed key is
  unique as a function, so the stable insertion sorts below compute
  exactly the lists the code computes.  Python dicts (and `defaultdict`)
  preserve key insertion order, modelled by association lists that append
  fresh keys at the end and update existing keys in place.
-/

/-- Value of `rcsb_entry_info.polymer_entity_count` as seen by
`int(entry_info.get('polymer_entity_count', 0)) or 0` (line 63):
absent (defaults to 0), an integer `n`, or a value on which `int(...)`
raises. -/
inductive PolyField where
  | absent
  | intVal (n : Int)
  | malformed
deriving DecidableEq, Repr

/-- Value of `reflns[0].d_resolution_high` as seen by
`float(reflns.get('d_resolution_high', 0)) if reflns.get('d_resolution_high') else 0`
(line 90): falsy/absent (the `else 0` branch), a numeric value `q`, or a
truthy value on which `float(...)` raises. -/
inductive ResField where
  | absent
  | numVal (q : ℚ)
  | malformed
deriving DecidableEq, Repr

/-- One loaded PDB JSON document, restricted to the fields
`extract_biology_concepts` reads, together with flags for the field
accesses that can raise (see the modelling notes above). -/
structure PdbData where
  structOk : Bool
  title : String
  polyField : PolyField
  exptlOk : Bool
  method : String
  reflnsOk : Bool
  resField : ResField
deriving DecidableEq, Repr

/-- The `concepts` dict built by `extract_biology_concepts` (lines 33-39):
`pdb_id`, `concepts`, `complexity_level`, `student_audience`,
`key_learning_objectives`, plus the `title` key added at line 44 (absent
when the title access raised first). -/
structure TaggedRecord where
  pdb_id : String
  title : Option String := none
  concepts : List String := []
  complexity_level : String := ""
  student_audience : List String := []
  key_learning_objectives : List String := []
deriving DecidableEq, Repr

/-- Python's substring test `needle in hay`, over character lists. -/
def hasInfix (needle : List Char) : List Char → Bool
  | [] => needle.isEmpty
  | c :: rest => needle.isPrefixOf (c :: rest) || hasInfix needle rest

/-- `needle in hay` on strings (case-sensitive, as in `'X-RAY' in exptl_method`). -/
def strContains (hay needle : String) : Bool :=
  hasInfix needle.toList hay.toList

/-- `needle in hay.lower()` as used by the title rules.  `Char.toLower`
lowers the ASCII range; Python's `str.lower()` additionally lowers
non-ASCII letters, which none of the rule keywords contain. -/
def containsLower (hay needle : String) : Bool :=
  hasInfix needle.toList (hay.toList.map Char.toLower)

/-- Python's `<` on strings: lexicographic comparison of code points. -/
def charListLt : List Char → List Char → Bool
  | [], [] => false
  | [], _ :: _ => true
  | _ :: _, [] => false
  | a :: as, b :: bs => if a < b then true else if b < a then false else charListLt as bs

/-- Lexicographic order on strings, by code point (Python's `<`). -/
def strLt (s t : String) : Bool :=
  charListLt s.toList t.toList

/-- Stable ascending insertion of a string into a sorted list. -/
def insertAsc (s : String) : List String → List String
  | [] => [s]
  | t :: rest => if strLt t s then t :: insertAsc s rest else s :: t :: rest

/-- Ascending insertion sort on strings. -/
def sortAsc : List String → List String
  | [] => []
  | s :: rest => insertAsc s (sortAsc rest)

/-- Drop elements already in `seen`, keeping first occurrences in order.
`dedupSeen [] l` lists the distinct elements of `l` in the order each was
first observed. -/
def dedupSeen (seen : List String) : List String → List String
  | [] => []
  | c :: rest =>
      if c ∈ seen then dedupSeen seen rest
      else c :: dedupSeen (seen ++ [c]) rest

/-- Python's `sorted(list(set(l)))` (line 116/117): the distinct elements
of `l` in ascending order. -/
def sortedSet (l : List String) : List String :=
  sortAsc (dedupSeen [] l)

/-- Two-decimal rendering of a positive rational, for the
`f'... {resolution:.2f}Å ...'` learning objective (line 97-99).  Only
called with `resolution > 0`.  Computes `⌊100q + 1/2⌋` by integer arithmetic.
(Python rounds the underlying float half-to-even; the claims never
inspect this string, so the exact tie-rounding convention is
immaterial.) -/
def fmt2 (q : ℚ) : String :=
  let n : Nat := (Int.fdiv (200 * q.num + (q.den : Int)) (2 * (q.den : Int))).toNat
  let ip := n / 100
  let fp := n % 100
  toString ip ++ "." ++ (if fp < 10 then "0" ++ toString fp else toString fp)

/-- Lines 47-59: the three title rules (enzyme / antibody-or-immune /
receptor). -/
def titleRules (t : String) (c : TaggedRecord) : TaggedRecord :=
  let c := if containsLower t "enzyme" then
      { c with concepts := c.concepts ++ ["Enzyme Function"],
               key_learning_objectives := c.key_learning_objectives ++
                 ["Understand how enzymes catalyze reactions"] }
    else c
  let c := if containsLower t "antibody" || containsLower t "immune" then
      { c with concepts := c.concepts ++ ["Immune Response", "Protein-Ligand Binding"],
               key_learning_objectives := c.key_learning_objectives ++
                 ["Explain antigen-antibody recognition"] }
    else c
  if containsLower t "receptor" then
      { c with concepts := c.concepts ++ ["Cell Signaling", "Protein Structure-Function"],
               key_learning_objectives := c.key_learning_objectives ++
                 ["Describe receptor-ligand interactions"] }
    else c

/-- Lines 65-72: the unconditional `Protein Quaternary Structure` tag and
the complexity/audience rule on `poly_count`. -/
def complexityRule (poly : Int) (c : TaggedRecord) : TaggedRecord :=
  let c := { c with concepts := c.concepts ++ ["Protein Quaternary Structure"] }
  if poly > 1 then
    { c with complexity_level := "Advanced",
             student_audience := c.student_audience ++ ["Upper High School", "College"],
             key_learning_objectives := c.key_learning_objectives ++
               ["Analyze multi-subunit protein interactions"] }
  else
    { c with complexity_level := "Intermediate",
             student_audience := c.student_audience ++ ["High School", "College"] }

/-- Lines 76-86: the experimental-method rules (first matching branch wins). -/
def methodRules (m : String) (c : TaggedRecord) : TaggedRecord :=
  if strContains m "X-RAY" then
    { c with concepts := c.concepts ++ ["X-ray Crystallography"],
             key_learning_objectives := c.key_learning_objectives ++
               ["Understand how X-ray data reveals protein structure"],
             student_audience := c.student_audience ++ ["College/Advanced"] }
  else if strContains m "ELECTRON" then
    { c with concepts := c.concepts ++ ["Cryo-EM"],
             key_learning_objectives := c.key_learning_objectives ++
               ["Understand electron microscopy and image processing"],
             student_audience := c.student_audience ++ ["College/Advanced"] }
  else if strContains m "NMR" then
    { c with concepts := c.concepts ++ ["NMR Spectroscopy"],
             student_audience := c.student_audience ++ ["College/Advanced"] }
  else c

/-- Lines 92-99: the resolution rules. -/
def resolutionRules (resolution : ℚ) (c : TaggedRecord) : TaggedRecord :=
  if resolution > 0 then
    let c := { c with concepts := c.concepts ++ ["Data Quality & Resolution"] }
    let c := if resolution < 2 then
        { c with concepts := c.concepts ++ ["High-Resolution Structures"],
                 student_audience := c.student_audience ++ ["Research Level"] }
      else c
    { c with key_learning_objectives := c.key_learning_objectives ++
        ["Interpret structural data at " ++ fmt2 resolution ++ "Ã… resolution"] }
  else c

/-- Lines 102-110: the ligand and dna/rna title rules. -/
def interactionRules (t : String) (c : TaggedRecord) : TaggedRecord :=
  let c := if containsLower t "ligand" then
      { c with concepts := c.concepts ++ ["Ligand Binding", "Drug Design"],
               key_learning_objectives := c.key_learning_objectives ++
                 ["Understand molecular recognition"] }
    else c
  if containsLower t "dna" || containsLower t "rna" then
    { c with concepts := c.concepts ++ ["Nucleic Acid-Protein Interactions", "Gene Expression"],
             key_learning_objectives := c.key_learning_objectives ++
               ["Connect DNA sequence to protein structure"] }
  else c

/-- Lines 113-117: the unconditional `Structure-Function Relationship` tag
followed by `sorted(list(set(...)))` on concepts and audience. -/
def finalizeRecord (c : TaggedRecord) : TaggedRecord :=
  let c := { c with concepts := c.concepts ++ ["Structure-Function Relationship"] }
  { c with concepts := sortedSet c.concepts,
           student_audience := sortedSet c.student_audience }

/-- `MolecularBiologyConceptMapper.extract_biology_concepts` (lines 31-122).
The `try/except` handler returns the partially built dict, so each
failing field access returns the state accumulated so far. -/
def extract_biology_concepts (d : PdbData) (pdb_id : String) : TaggedRecord :=
  let c : TaggedRecord := { pdb_id := pdb_id }
  if !d.structOk then c
  else
    let c := { c with title := some d.title }
    let c := titleRules d.title c
    match d.polyField with
    | .malformed => c
    | pf =>
      let poly : Int := match pf with | .intVal n => n | _ => 0
      let c := complexityRule poly c
      if !d.exptlOk then c
      else
        let c := methodRules d.method c
        if !d.reflnsOk then c
        else
          match d.resField with
          | .malformed => c
          | rf =>
            let resolution : ℚ := match rf with | .numVal q => q | _ => 0
            let c := resolutionRules resolution c
            let c := interactionRules d.title c
            finalizeRecord c

/-- One input file for `process_pdb_files`: the file stem (used as
`pdb_id`) and the result of `json.load` (`none` when loading raised, the
`except ... pass` case at lines 266-267). -/
abbrev PdbFile := String × Option PdbData

/-- `MolecularBiologyConceptMapper.process_pdb_files` (lines 249-269):
load each file, skip load failures silently, tag the rest, and keep the
records with a non-empty concept list. -/
def process_pdb_files : List PdbFile → List TaggedRecord
  | [] => []
  | f :: rest =>
    match f.2 with
    | none => process_pdb_files rest
    | some d =>
      let c := extract_biology_concepts d f.1
      if c.concepts.isEmpty then process_pdb_files rest
      else c :: process_pdb_files rest

/-- `concept_frequency[concept] += 1` on an insertion-ordered association
list (a `defaultdict(int)`): update the existing entry in place, or append
a fresh key with count 1. -/
def bumpFreq : List (String × Nat) → String → List (String × Nat)
  | [], c => [(c, 1)]
  | p :: rest, c =>
      if p.1 = c then (p.1, p.2 + 1) :: rest else p :: bumpFreq rest c

/-- `concept_to_pdb[concept].append(pdb_id)` on an insertion-ordered
association list (a `defaultdict(list)`). -/
def addExample : List (String × List String) → String → String → List (String × List String)
  | [], c, id => [(c, [id])]
  | p :: rest, c, id =>
      if p.1 = c then (p.1, p.2 ++ [id]) :: rest else p :: addExample rest c id

/-- The double loop of `generate_concept_map` (lines 276-280): one pass
over the records, updating `concept_frequency` and `concept_to_pdb`
together. -/
def conceptFold (records : List TaggedRecord) :
    List (String × Nat) × List (String × List String) :=
  records.foldl
    (fun st r => r.concepts.foldl
      (fun st c => (bumpFreq st.1 c, addExample st.2 c r.pdb_id)) st)
    ([], [])

/-- Stable descending insertion (by frequency) of one `(concept, count)`
pair: pass over entries with strictly larger count, so that at equal
counts the earlier-inserted entry stays first. -/
def insertDesc (p : String × Nat) : List (String × Nat) → List (String × Nat)
  | [] => [p]
  | q :: rest => if q.2 > p.2 then q :: insertDesc p rest else p :: q :: rest

/-- `sorted(concept_frequency.items(), key=lambda x: x[1], reverse=True)`
(line 283): a stable descending sort by count.  Python's `sorted` is
stable, and a stable sort for a fixed key is unique, so this insertion
sort computes exactly the list the code computes. -/
def sortDesc : List (String × Nat) → List (String × Nat)
  | [] => []
  | p :: rest => insertDesc p (sortDesc rest)

/-- The dict returned by `generate_concept_map` (lines 285-291). -/
structure ConceptIndex where
  total_concepts : Nat
  most_common_concepts : List (String × Nat)
  concept_to_examples : List (String × List String)
  complexity_distribution : List (String × Nat)
  audience_distribution : List (String × Nat)
deriving DecidableEq, Repr

/-- `_analyze_complexity` (lines 293-299).  (`data.get('complexity_level',
'Not specified')` never takes its default: the tagger always initialises
the key, so the embedding reads the field directly.) -/
def analyze_complexity (records : List TaggedRecord) : List (String × Nat) :=
  records.foldl (fun m r => bumpFreq m r.complexity_level) []

/-- `_analyze_audience` (lines 301-307). -/
def analyze_audience (records : List TaggedRecord) : List (String × Nat) :=
  records.foldl (fun m r => r.student_audience.foldl bumpFreq m) []

/-- `MolecularBiologyConceptMapper.generate_concept_map` (lines 271-291). -/
def generate_concept_map (records : List TaggedRecord) : ConceptIndex :=
  let fe := conceptFold records
  { total_concepts := fe.1.length
    most_common_concepts := (sortDesc fe.1).take 20
    concept_to_examples := fe.2
    complexity_distribution := analyze_complexity records
    audience_distribution := analyze_audience records }

/-- One entry of the `teaching_sequence` list of a lesson template. -/
structure TeachingPhase where
  phase : String
  activities : List String
  duration : String
deriving DecidableEq, Repr

/-- The `assessment` dict of a lesson template. -/
structure Assessment where
  formative : String
  summative : String
deriving DecidableEq, Repr

/-- The `connections` dict of a lesson template. -/
structure Connections where
  previous_concepts : String
  subsequent_concepts : String
  real_world_applications : String
deriving DecidableEq, Repr

/-- The dict returned by `create_lesson_template` (lines 168-247). -/
structure LessonTemplate where
  concept : String
  difficulty_level : String
  pdb_example : Option String
  learning_objectives : List String
  scientific_practices : List String
  teaching_sequence : List TeachingPhase
  resources : List String
  assessment : Assessment
  connections : Connections
deriving DecidableEq, Repr

/-- `MolecularBiologyConceptMapper.create_lesson_template` (lines 166-247).
The third parameter defaults to `None` in the source; the pipeline
(`main`, line 342) always calls it with two arguments. -/
def create_lesson_template (concept level : String)
    (pdb_id : Option String := none) : LessonTemplate :=
  { concept := concept
    difficulty_level := level
    pdb_example := pdb_id
    learning_objectives := [
      "Students will understand the core principle",
      "Students will visualize the concept with molecular structures",
      "Students will apply the concept to real biological problems"]
    scientific_practices := [
      "Asking Questions",
      "Developing Models",
      "Planning Investigations",
      "Analyzing Data",
      "Constructing Explanations",
      "Engaging in Argument from Evidence",
      "Obtaining, Evaluating & Communicating Information"]
    teaching_sequence := [
      { phase := "Engagement",
        activities := [
          "Show real PDB structure (3D visualization)",
          "Ask guiding questions about molecular properties"],
        duration := "5-10 minutes" },
      { phase := "Exploration",
        activities := [
          "Students interact with PDB structure online",
          "Students collect data about structure features",
          "Students form hypotheses"],
        duration := "15-20 minutes" },
      { phase := "Explanation",
        activities := [
          "Connect observations to scientific principles",
          "Explain concept through guided discovery",
          "Use multiple representations (2D, 3D, sequence)"],
        duration := "15 minutes" },
      { phase := "Elaboration",
        activities := [
          "Apply concept to similar structures",
          "Solve problems using PDB data",
          "Make connections to other concepts"],
        duration := "15-20 minutes" },
      { phase := "Evaluation",
        activities := [
          "Concept mapping exercise",
          "Written explanation of concept",
          "Peer discussion and critique"],
        duration := "10-15 minutes" }]
    resources := [
      "RCSB PDB (www.rcsb.org)",
      "Mol* Viewer (online 3D visualization)",
      "NCBI Structure Database",
      "NextStrain for viral protein evolution"]
    assessment := {
      formative := "Observation checklists, concept sketches, peer feedback",
      summative := "Concept map, explanation essay, problem-solving tasks" }
    connections := {
      previous_concepts := "List concepts that should be taught first",
      subsequent_concepts := "List concepts that build on this one",
      real_world_applications := "Disease research, drug development, biotechnology" } }

/-- The integer `int(entry_info.get('polymer_entity_count', 0)) or 0`
evaluates to when it does not raise (line 63). -/
def polyVal : PolyField → Int
  | .intVal n => n
  | _ => 0

/-- The number the resolution expression at line 90 evaluates to when it
does not raise. -/
def resVal : ResField → ℚ
  | .numVal q => q
  | _ => 0

/-- Dictionary lookup on an insertion-ordered association list. -/
def findVal {α : Type} : List (String × α) → String → Option α
  | [], _ => none
  | p :: rest, c => if p.1 = c then some p.2 else findVal rest c

/-- A file that `process_pdb_files` keeps: it loads, and tagging it yields
a non-empty concept list. -/
def taggedOk (f : PdbFile) : Bool :=
  match f.2 with
  | none => false
  | some d => !(extract_biology_concepts d f.1).concepts.isEmpty

/-- The `(concept, pdb_id)` visit sequence of the double loop in
`generate_concept_map`: records in order, each record's concepts in
order. -/
def conceptPairs (records : List TaggedRecord) : List (String × String) :=
  records.flatMap (fun r => r.concepts.map (fun c => (c, r.pdb_id)))

/-- One step of the `generate_concept_map` loop body (lines 279-280),
viewed per visited `(concept, pdb_id)` pair. -/
def pairStep (st : List (String × Nat) × List (String × List String))
    (p : String × String) : List (String × Nat) × List (String × List String) :=
  (bumpFreq st.1 p.1, addExample st.2 p.1 p.2)

/-- Input document for the C4 counterexample: `struct.title` is
`"enzyme ligand"`, `polymer_entity_count` absent, `exptl` and `reflns`
readable, and `d_resolution_high` a truthy non-numeric value, so
`float(...)` raises at line 90. -/
def c4Input : PdbData :=
  { structOk := true, title := "enzyme ligand", polyField := .absent,
    exptlOk := true, method := "", reflnsOk := true, resField := .malformed }

/-- A document with no `struct` section at all: `pdb_data.get('struct', {})`
returns `{}` and `.get('title', '')` returns `""` without raising, so the
title is just empty; all other fields absent. -/
def noStructDoc : PdbData :=
  { structOk := true, title := "", polyField := .absent,
    exptlOk := true, method := "", reflnsOk := true, resField := .absent }

/-- An ordinary valid document used to fill batches in scenario claims. -/
def plainDoc : PdbData :=
  { structOk := true, title := "enzyme", polyField := .intVal 1,
    exptlOk := true, method := "X-RAY DIFFRACTION", reflnsOk := true,
    resField := .numVal (mkRat 9 5) }

/-- Batch for the C5 counterexample: 10 documents, the first with no
structure/title section, the other 9 ordinary. -/
def c5Batch : List PdbFile :=
  ("F0", some noStructDoc) ::
    (List.range 9).map (fun i => (toString (i + 1), some plainDoc))

/-- A document whose `struct` value is present but not a dict: the
`.get('title', '')` call at line 43 raises, so the record comes back with
an empty concept list.  Used for the C10 counterexample. -/
def badStructDoc : PdbData :=
  { structOk := false, title := "", polyField := .absent,
    exptlOk := true, method := "", reflnsOk := true, resField := .absent }

/-- A single already-tagged record used as the C9 witness input. -/
def wRec : TaggedRecord :=
  { pdb_id := "1ABC", title := none, concepts := ["Enzyme Function"],
    complexity_level := "Intermediate", student_audience := [],
    key_learning_objectives := [] }

/-- Four valid files preceding the unreadable one in the C5 witness batch. -/
def c5Pre : List PdbFile :=
  (List.range 4).map (fun i => ("P" ++ toString i, some plainDoc))

/-- Five valid files following the unreadable one in the C5 witness batch. -/
def c5Post : List PdbFile :=
  (List.range 5).map (fun i => ("Q" ++ toString i, some plainDoc))

/-! ## Characterisation lemmas for the tagger's rule steps -/

theorem complexity_titleRules (t : String) (c : TaggedRecord) :
    (titleRules t c).complexity_level = c.complexity_level := by
  unfold titleRules; split <;> split <;> split <;> rfl

theorem complexity_complexityRule (p : Int) (c : TaggedRecord) :
    (complexityRule p c).complexity_level =
      if p > 1 then "Advanced" else "Intermediate" := by
  unfold complexityRule; split <;> rfl

theorem complexity_methodRules (m : String) (c : TaggedRecord) :
    (methodRules m c).complexity_level = c.complexity_level := by
  unfold methodRules; split <;> [rfl; split <;> [rfl; split <;> rfl]]

theorem complexity_resolutionRules (q : ℚ) (c : TaggedRecord) :
    (resolutionRules q c).complexity_level = c.complexity_level := by
  unfold resolutionRules; split <;> [split <;> rfl; rfl]

theorem complexity_interactionRules (t : String) (c : TaggedRecord) :
    (interactionRules t c).complexity_level = c.complexity_level := by
  unfold interactionRules; split <;> split <;> rfl

theorem complexity_finalizeRecord (c : TaggedRecord) :
    (finalizeRecord c).complexity_level = c.complexity_level := rfl

/-- The complexity level computed for a record whose title access works
and whose `polymer_entity_count` parses to the integer `n`: later field
failures cannot change it, because lines 66-72 run before lines 75-117. -/
theorem extract_complexity (t m id : String) (eok rok : Bool)
    (rf : ResField) (n : Int) :
    (extract_biology_concepts
        { structOk := true, title := t, polyField := .intVal n,
          exptlOk := eok, method := m, reflnsOk := rok, resField := rf }
        id).complexity_level =
      if n > 1 then "Advanced" else "Intermediate" := by
  unfold extract_biology_concepts
  cases eok <;> cases rok <;> cases rf <;>
    simp [complexity_finalizeRecord, complexity_interactionRules,
      complexity_resolutionRules, complexity_methodRules,
      complexity_complexityRule]

theorem concepts_titleRules (t : String) (c : TaggedRecord) :
    (titleRules t c).concepts = c.concepts ++
      ((if containsLower t "enzyme" then ["Enzyme Function"] else []) ++
       (if containsLower t "antibody" || containsLower t "immune" then
          ["Immune Response", "Protein-Ligand Binding"] else []) ++
       (if containsLower t "receptor" then
          ["Cell Signaling", "Protein Structure-Function"] else [])) := by
  unfold titleRules; split <;> split <;> split <;> simp

theorem concepts_complexityRule (p : Int) (c : TaggedRecord) :
    (complexityRule p c).concepts = c.concepts ++ ["Protein Quaternary Structure"] := by
  unfold complexityRule; split <;> rfl

theorem concepts_methodRules (m : String) (c : TaggedRecord) :
    (methodRules m c).concepts = c.concepts ++
      (if strContains m "X-RAY" then ["X-ray Crystallography"]
       else if strContains m "ELECTRON" then ["Cryo-EM"]
       else if strContains m "NMR" then ["NMR Spectroscopy"]
       else []) := by
  unfold methodRules
  split <;> [skip; split <;> [skip; split <;> [skip; skip]]] <;> simp

theorem concepts_resolutionRules (q : ℚ) (c : TaggedRecord) :
    (resolutionRules q c).concepts = c.concepts ++
      (if q > 0 then
        "Data Quality & Resolution" ::
          (if q < 2 then ["High-Resolution Structures"] else [])
       else []) := by
  unfold resolutionRules; split <;> [split <;> simp; simp]

theorem concepts_interactionRules (t : String) (c : TaggedRecord) :
    (interactionRules t c).concepts = c.concepts ++
      ((if containsLower t "ligand" then ["Ligand Binding", "Drug Design"] else []) ++
       (if containsLower t "dna" || containsLower t "rna" then
          ["Nucleic Acid-Protein Interactions", "Gene Expression"] else [])) := by
  unfold interactionRules; split <;> split <;> simp

theorem concepts_finalizeRecord (c : TaggedRecord) :
    (finalizeRecord c).concepts =
      sortedSet (c.concepts ++ ["Structure-Function Relationship"]) := rfl

theorem audience_titleRules (t : String) (c : TaggedRecord) :
    (titleRules t c).student_audience = c.student_audience := by
  unfold titleRules; split <;> split <;> split <;> rfl

theorem audience_complexityRule (p : Int) (c : TaggedRecord) :
    (complexityRule p c).student_audience = c.student_audience ++
      (if p > 1 then ["Upper High School", "College"]
       else ["High School", "College"]) := by
  unfold complexityRule; split <;> simp

theorem audience_methodRules (m : String) (c : TaggedRecord) :
    (methodRules m c).student_audience = c.student_audience ++
      (if strContains m "X-RAY" then ["College/Advanced"]
       else if strContains m "ELECTRON" then ["College/Advanced"]
       else if strContains m "NMR" then ["College/Advanced"]
       else []) := by
  unfold methodRules
  split <;> [skip; split <;> [skip; split <;> [skip; skip]]] <;> simp

theorem audience_resolutionRules (q : ℚ) (c : TaggedRecord) :
    (resolutionRules q c).student_audience = c.student_audience ++
      (if q > 0 then (if q < 2 then ["Research Level"] else []) else []) := by
  unfold resolutionRules; split <;> [split <;> simp; simp]

theorem audience_interactionRules (t : String) (c : TaggedRecord) :
    (interactionRules t c).student_audience = c.student_audience := by
  unfold interactionRules; split <;> split <;> rfl

theorem audience_finalizeRecord (c : TaggedRecord) :
    (finalizeRecord c).student_audience = sortedSet c.student_audience := rfl

/-! ## Membership in `sortedSet` -/

theorem mem_insertAsc (x s : String) (l : List String) :
    x ∈ insertAsc s l ↔ x = s ∨ x ∈ l := by
  induction l with
  | nil => simp [insertAsc]
  | cons t rest ih => unfold insertAsc; split <;> simp [ih, or_left_comm]

theorem mem_sortAsc (x : String) (l : List String) :
    x ∈ sortAsc l ↔ x ∈ l := by
  induction l with
  | nil => simp [sortAsc]
  | cons s rest ih => simp [sortAsc, mem_insertAsc, ih]

theorem mem_dedupSeen (x : String) (l : List String) : ∀ seen : List String,
    x ∈ dedupSeen seen l ↔ x ∈ l ∧ x ∉ seen := by
  induction l with
  | nil => simp [dedupSeen]
  | cons c rest ih =>
      intro seen
      unfold dedupSeen
      split
      · rename_i hc
        rw [ih]
        constructor
        · rintro ⟨h1, h2⟩; exact ⟨List.mem_cons_of_mem _ h1, h2⟩
        · rintro ⟨h1, h2⟩
          rcases List.mem_cons.mp h1 with rfl | h1
          · exact absurd hc h2
          · exact ⟨h1, h2⟩
      · rename_i hc
        rw [List.mem_cons, ih, List.mem_cons]
        constructor
        · rintro (rfl | ⟨h1, h2⟩)
          · exact ⟨Or.inl rfl, hc⟩
          · exact ⟨Or.inr h1, fun hx => h2 (List.mem_append_left _ hx)⟩
        · rintro ⟨rfl | h1, h2⟩
          · exact Or.inl rfl
          · rcases eq_or_ne x c with rfl | hne
            · exact Or.inl rfl
            · refine Or.inr ⟨h1, fun hx => ?_⟩
              rcases List.mem_append.mp hx with h | h
              · exact h2 h
              · exact hne (List.mem_singleton.mp h)

theorem mem_sortedSet (x : String) (l : List String) :
    x ∈ sortedSet l ↔ x ∈ l := by
  simp [sortedSet, mem_sortAsc, mem_dedupSeen]

/-! ## Claim theorems: tagger functional correctness -/

/-- C3. Complexity boundary: for every RawRecord whose
`polymer_entity_count` field parses as an integer `n` (and whatever the
other fields hold), the tagger assigns complexity level `"Advanced"` iff
`n > 1`, and otherwise `"Intermediate"`; in particular `n = 1` yields
`"Intermediate"` and `n = 2` yields `"Advanced"`. -/
theorem C3_complexity_boundary (t m id : String) (eok rok : Bool)
    (rf : ResField) (n : Int) :
    ((extract_biology_concepts
        { structOk := true, title := t, polyField := .intVal n,
          exptlOk := eok, method := m, reflnsOk := rok, resField := rf }
        id).complexity_level = "Advanced" ↔ n > 1) ∧
    ((extract_biology_concepts
        { structOk := true, title := t, polyField := .intVal n,
          exptlOk := eok, method := m, reflnsOk := rok, resField := rf }
        id).complexity_level = "Intermediate" ↔ ¬ n > 1) ∧
    (extract_biology_concepts
        { structOk := true, title := t, polyField := .intVal 1,
          exptlOk := eok, method := m, reflnsOk := rok, resField := rf }
        id).complexity_level = "Intermediate" ∧
    (extract_biology_concepts
        { structOk := true, title := t, polyField := .intVal 2,
          exptlOk := eok, method := m, reflnsOk := rok, resField := rf }
        id).complexity_level = "Advanced" := by
  simp only [extract_complexity]
  refine ⟨?_, ?_, by norm_num, by norm_num⟩
  · split
    · rename_i h; simp [h]
    · rename_i h
      exact ⟨fun he => absurd he (by decide), fun hn => absurd hn h⟩
  · split
    · rename_i h
      exact ⟨fun he => absurd he (by decide), fun hn => absurd h hn⟩
    · rename_i h; simp [h]

/-- C7. Scenario A: tagging the record with title
`"Enzyme X-RAY structure"`, method `"X-RAY DIFFRACTION"`,
`polymer_entity_count = 1` and resolution `1.8` yields a record whose
concept set includes the six listed concepts and whose complexity level
is `"Intermediate"`. -/
theorem C7_scenario_A :
    "Enzyme Function" ∈ (extract_biology_concepts
        { structOk := true, title := "Enzyme X-RAY structure",
          polyField := .intVal 1, exptlOk := true,
          method := "X-RAY DIFFRACTION", reflnsOk := true,
          resField := .numVal (mkRat 9 5) } "1ABC").concepts ∧
    "Protein Quaternary Structure" ∈ (extract_biology_concepts
        { structOk := true, title := "Enzyme X-RAY structure",
          polyField := .intVal 1, exptlOk := true,
          method := "X-RAY DIFFRACTION", reflnsOk := true,
          resField := .numVal (mkRat 9 5) } "1ABC").concepts ∧
    "X-ray Crystallography" ∈ (extract_biology_concepts
        { structOk := true, title := "Enzyme X-RAY structure",
          polyField := .intVal 1, exptlOk := true,
          method := "X-RAY DIFFRACTION", reflnsOk := true,
          resField := .numVal (mkRat 9 5) } "1ABC").concepts ∧
    "Data Quality & Resolution" ∈ (extract_biology_concepts
        { structOk := true, title := "Enzyme X-RAY structure",
          polyField := .intVal 1, exptlOk := true,
          method := "X-RAY DIFFRACTION", reflnsOk := true,
          resField := .numVal (mkRat 9 5) } "1ABC").concepts ∧
    "High-Resolution Structures" ∈ (extract_biology_concepts
        { structOk := true, title := "Enzyme X-RAY structure",
          polyField := .intVal 1, exptlOk := true,
          method := "X-RAY DIFFRACTION", reflnsOk := true,
          resField := .numVal (mkRat 9 5) } "1ABC").concepts ∧
    "Structure-Function Relationship" ∈ (extract_biology_concepts
        { structOk := true, title := "Enzyme X-RAY structure",
          polyField := .intVal 1, exptlOk := true,
          method := "X-RAY DIFFRACTION", reflnsOk := true,
          resField := .numVal (mkRat 9 5) } "1ABC").concepts ∧
    (extract_biology_concepts
        { structOk := true, title := "Enzyme X-RAY structure",
          polyField := .intVal 1, exptlOk := true,
          method := "X-RAY DIFFRACTION", reflnsOk := true,
          resField := .numVal (mkRat 9 5) } "1ABC").complexity_level
      = "Intermediate" := by
  decide

/-- C8. Lesson template generation: `create_lesson_template` is a
function of the concept, the difficulty and the (pipeline-unused,
`None`-defaulted) example id, where the example id only fills the
`pdb_example` slot; its result has exactly the five phases Engagement,
Exploration, Explanation, Elaboration, Evaluation in order, each with its
literal default duration, the static resource list, and the two-part
formative/summative assessment pair. -/
theorem C8_lesson_template (concept level : String) (pdb_id : Option String) :
    create_lesson_template concept level pdb_id
        = { create_lesson_template concept level none with pdb_example := pdb_id } ∧
    (create_lesson_template concept level pdb_id).teaching_sequence.map TeachingPhase.phase
        = ["Engagement", "Exploration", "Explanation", "Elaboration", "Evaluation"] ∧
    (create_lesson_template concept level pdb_id).teaching_sequence.map TeachingPhase.duration
        = ["5-10 minutes", "15-20 minutes", "15 minutes", "15-20 minutes", "10-15 minutes"] ∧
    (create_lesson_template concept level pdb_id).resources
        = ["RCSB PDB (www.rcsb.org)", "Mol* Viewer (online 3D visualization)",
           "NCBI Structure Database", "NextStrain for viral protein evolution"] ∧
    (create_lesson_template concept level pdb_id).assessment
        = { formative := "Observation checklists, concept sketches, peer feedback",
            summative := "Concept map, explanation essay, problem-solving tasks" } := by
  exact ⟨rfl, rfl, rfl, rfl, rfl⟩

/-- On a record whose field accesses all succeed, the tagger is the
composite of its six rule blocks. -/
theorem extract_eq_pipeline (t m id : String) (pf : PolyField) (rf : ResField)
    (hpf : pf ≠ PolyField.malformed) (hrf : rf ≠ ResField.malformed) :
    extract_biology_concepts
        { structOk := true, title := t, polyField := pf, exptlOk := true,
          method := m, reflnsOk := true, resField := rf } id
      = finalizeRecord (interactionRules t (resolutionRules (resVal rf)
          (methodRules m (complexityRule (polyVal pf)
            (titleRules t { pdb_id := id, title := some t }))))) := by
  cases pf with
  | malformed => exact absurd rfl hpf
  | absent =>
      cases rf with
      | malformed => exact absurd rfl hrf
      | absent => rfl
      | numVal q => rfl
  | intVal n =>
      cases rf with
      | malformed => exact absurd rfl hrf
      | absent => rfl
      | numVal q => rfl

/-- Audience of a fully processed record: the complexity block's pair,
plus `College/Advanced` if a method branch fired, plus `Research Level`
for a positive sub-2.0 resolution, deduplicated and sorted. -/
theorem extract_audience (t m id : String) (pf : PolyField) (rf : ResField)
    (hpf : pf ≠ PolyField.malformed) (hrf : rf ≠ ResField.malformed) :
    (extract_biology_concepts
        { structOk := true, title := t, polyField := pf, exptlOk := true,
          method := m, reflnsOk := true, resField := rf } id).student_audience
      = sortedSet
          ((if polyVal pf > 1 then ["Upper High School", "College"]
            else ["High School", "College"]) ++
           ((if strContains m "X-RAY" then ["College/Advanced"]
             else if strContains m "ELECTRON" then ["College/Advanced"]
             else if strContains m "NMR" then ["College/Advanced"]
             else []) ++
            (if resVal rf > 0 then
               (if resVal rf < 2 then ["Research Level"] else [])
             else []))) := by
  rw [extract_eq_pipeline t m id pf rf hpf hrf, audience_finalizeRecord,
    audience_interactionRules, audience_resolutionRules, audience_methodRules,
    audience_complexityRule, audience_titleRules]
  simp [List.append_assoc]

/-- A string drawn from the method/resolution audience extras is neither
`"High School"` nor `"Upper High School"`. -/
theorem aud_extras_ne (x m : String) (q : ℚ)
    (h : x ∈ (if strContains m "X-RAY" then ["College/Advanced"]
              else if strContains m "ELECTRON" then ["College/Advanced"]
              else if strContains m "NMR" then ["College/Advanced"]
              else []) ∨
         x ∈ (if q > 0 then (if q < 2 then ["Research Level"] else []) else [])) :
    x ≠ "High School" ∧ x ≠ "Upper High School" := by
  have hx : x = "College/Advanced" ∨ x = "Research Level" := by
    rcases h with h | h
    · left
      split at h
      · simpa using h
      · split at h
        · simpa using h
        · split at h
          · simpa using h
          · simp at h
    · right
      split at h
      · split at h
        · simpa using h
        · simp at h
      · simp at h
  rcases hx with rfl | rfl <;> exact ⟨by decide, by decide⟩

/-! ## Claim C4: field coercion -/

/-- C4 counterexample.  Input: title `"enzyme ligand"`, method empty,
`polymer_entity_count` absent, `d_resolution_high` present but
non-numeric.  Were the malformed resolution coerced to its neutral value
0 with the remaining signals processed normally, the ligand title rule
and the universal `Structure-Function Relationship` tag would fire; in
the code the `float(...)` exception aborts extraction instead, so the
returned record has exactly the concepts accumulated before line 90 and
the claim is false at this input. -/
theorem C4_counterexample :
    (extract_biology_concepts c4Input "9XYZ").concepts
        = ["Enzyme Function", "Protein Quaternary Structure"] ∧
    "Ligand Binding" ∉ (extract_biology_concepts c4Input "9XYZ").concepts ∧
    "Structure-Function Relationship" ∉ (extract_biology_concepts c4Input "9XYZ").concepts := by
  decide

/-- With a well-formed entity count but a malformed resolution, the
tagger stops right before the resolution rules. -/
theorem extract_resMalformed (t m id : String) :
    (extract_biology_concepts
        { structOk := true, title := t, polyField := .absent, exptlOk := true,
          method := m, reflnsOk := true, resField := .malformed } id
      = methodRules m (complexityRule 0 (titleRules t { pdb_id := id, title := some t }))) ∧
    ∀ n : Int, extract_biology_concepts
        { structOk := true, title := t, polyField := .intVal n, exptlOk := true,
          method := m, reflnsOk := true, resField := .malformed } id
      = methodRules m (complexityRule n (titleRules t { pdb_id := id, title := some t })) :=
  ⟨rfl, fun _ => rfl⟩

/-- C4 (amended).  A present-but-malformed scalar field is not coerced to
a neutral value: the exception handler stops rule evaluation at that
field, keeping only the concepts added before it and skipping every later
rule, including the universal `Structure-Function Relationship` tag and
the final deduplication/sort.  For a malformed resolution the record is
still produced and retained (its concept list already holds `Protein
Quaternary Structure`); for a malformed entity count only the title rules
have run, so a record with a keyword-free title comes back with no
concepts at all and is dropped by `process_pdb_files`. -/
theorem C4_amended (t m id : String) (pf : PolyField)
    (hpf : pf ≠ PolyField.malformed) :
    ("Protein Quaternary Structure" ∈ (extract_biology_concepts
        { structOk := true, title := t, polyField := pf, exptlOk := true,
          method := m, reflnsOk := true, resField := .malformed } id).concepts ∧
     "Structure-Function Relationship" ∉ (extract_biology_concepts
        { structOk := true, title := t, polyField := pf, exptlOk := true,
          method := m, reflnsOk := true, resField := .malformed } id).concepts ∧
     (extract_biology_concepts
        { structOk := true, title := t, polyField := pf, exptlOk := true,
          method := m, reflnsOk := true, resField := .malformed } id).concepts ≠ []) ∧
    (∀ id2 : String, (extract_biology_concepts
        { structOk := true, title := "", polyField := .malformed, exptlOk := true,
          method := m, reflnsOk := true, resField := .absent } id2).concepts = []) := by
  have hmain : ∀ n : Int, ∀ c : TaggedRecord,
      c = methodRules m (complexityRule n (titleRules t { pdb_id := id, title := some t })) →
      "Protein Quaternary Structure" ∈ c.concepts ∧
      "Structure-Function Relationship" ∉ c.concepts ∧ c.concepts ≠ [] := by
    intro n c hc
    have hcc : c.concepts = (([] ++
        ((if containsLower t "enzyme" then ["Enzyme Function"] else []) ++
         (if containsLower t "antibody" || containsLower t "immune" then
            ["Immune Response", "Protein-Ligand Binding"] else []) ++
         (if containsLower t "receptor" then
            ["Cell Signaling", "Protein Structure-Function"] else []))) ++
        ["Protein Quaternary Structure"]) ++
        (if strContains m "X-RAY" then ["X-ray Crystallography"]
         else if strContains m "ELECTRON" then ["Cryo-EM"]
         else if strContains m "NMR" then ["NMR Spectroscopy"]
         else []) := by
      rw [hc, concepts_methodRules, concepts_complexityRule, concepts_titleRules]
    refine ⟨?_, ?_, ?_⟩ <;> rw [hcc] <;> split_ifs <;> decide
  constructor
  · cases pf with
    | malformed => exact absurd rfl hpf
    | absent => exact hmain 0 _ (extract_resMalformed t m id).1
    | intVal n => exact hmain n _ ((extract_resMalformed t m id).2 n)
  · intro id2; rfl

/-- Witness for `C4_amended` at title `"x"`, empty method, absent entity
count, record id `"W1"`, second-part id `"W2"`. -/
theorem C4_amended_witness :
    ("Protein Quaternary Structure" ∈ (extract_biology_concepts
        { structOk := true, title := "x", polyField := .absent, exptlOk := true,
          method := "", reflnsOk := true, resField := .malformed } "W1").concepts ∧
     "Structure-Function Relationship" ∉ (extract_biology_concepts
        { structOk := true, title := "x", polyField := .absent, exptlOk := true,
          method := "", reflnsOk := true, resField := .malformed } "W1").concepts ∧
     (extract_biology_concepts
        { structOk := true, title := "x", polyField := .absent, exptlOk := true,
          method := "", reflnsOk := true, resField := .malformed } "W1").concepts ≠ []) ∧
    (∀ id2 : String, (extract_biology_concepts
        { structOk := true, title := "", polyField := .malformed, exptlOk := true,
          method := "", reflnsOk := true, resField := .absent } id2).concepts = []) :=
  C4_amended "x" "" "W1" .absent (by decide)

/-! ## Claim C6: audience comparison between Advanced and Intermediate -/

/-- C6 counterexample.  Two records identical except for
`polymer_entity_count` (2 versus 1): the Advanced record's audience is
`["College", "Upper High School"]` and the Intermediate one's is
`["College", "High School"]` — the former does not contain
`"High School"`, so it is not a superset, let alone a strict one. -/
theorem C6_counterexample :
    "High School" ∈ (extract_biology_concepts
        { structOk := true, title := "", polyField := .intVal 1, exptlOk := true,
          method := "", reflnsOk := true, resField := .absent } "B").student_audience ∧
    "High School" ∉ (extract_biology_concepts
        { structOk := true, title := "", polyField := .intVal 2, exptlOk := true,
          method := "", reflnsOk := true, resField := .absent } "A").student_audience ∧
    ¬ (∀ x ∈ (extract_biology_concepts
          { structOk := true, title := "", polyField := .intVal 1, exptlOk := true,
            method := "", reflnsOk := true, resField := .absent } "B").student_audience,
        x ∈ (extract_biology_concepts
          { structOk := true, title := "", polyField := .intVal 2, exptlOk := true,
            method := "", reflnsOk := true, resField := .absent } "A").student_audience) := by
  refine ⟨by decide, by decide, ?_⟩
  intro h
  exact absurd (h "High School" (by decide)) (by decide)

/-- C6 (amended).  For two records with identical title, method and
resolution signals whose entity counts parse to `n1 > 1` (Advanced) and
`n2 ≤ 1` (Intermediate), the Advanced record's audience set is the
Intermediate one's with `"High School"` replaced by
`"Upper High School"`; since `"High School"` is lost, it is not a
superset. -/
theorem C6_amended (t m id1 id2 : String) (rf : ResField)
    (hrf : rf ≠ ResField.malformed) (n1 n2 : Int) (h1 : n1 > 1) (h2 : n2 ≤ 1)
    (x : String) :
    x ∈ (extract_biology_concepts
        { structOk := true, title := t, polyField := .intVal n1, exptlOk := true,
          method := m, reflnsOk := true, resField := rf } id1).student_audience
      ↔ ((x ∈ (extract_biology_concepts
            { structOk := true, title := t, polyField := .intVal n2, exptlOk := true,
              method := m, reflnsOk := true, resField := rf } id2).student_audience ∧
          x ≠ "High School") ∨ x = "Upper High School") := by
  rw [extract_audience t m id1 (.intVal n1) rf (by simp) hrf,
    extract_audience t m id2 (.intVal n2) rf (by simp) hrf]
  have hv1 : polyVal (.intVal n1) = n1 := rfl
  have hv2 : polyVal (.intVal n2) = n2 := rfl
  rw [hv1, hv2, if_pos h1, if_neg (not_lt.mpr h2)]
  simp only [mem_sortedSet, List.mem_append]
  have hC : x = "College" → x ≠ "High School" := fun hx => by rw [hx]; decide
  have hU : x = "Upper High School" → x ≠ "High School" := fun hx => by rw [hx]; decide
  constructor
  · rintro (hx | hx)
    · rcases List.mem_cons.mp hx with rfl | hx
      · exact Or.inr rfl
      · rcases List.mem_singleton.mp hx with rfl
        exact Or.inl ⟨Or.inl (by decide), by decide⟩
    · have := aud_extras_ne x m (resVal rf) hx
      exact Or.inl ⟨Or.inr hx, this.1⟩
  · rintro (⟨hx | hx, hns⟩ | rfl)
    · rcases List.mem_cons.mp hx with rfl | hx
      · exact absurd rfl hns
      · rcases List.mem_singleton.mp hx with rfl
        exact Or.inl (by decide)
    · exact Or.inr hx
    · exact Or.inl (by decide)

/-- Witness for `C6_amended`: empty shared title/method, absent
resolution, entity counts 2 and 1, tested at `x = "High School"`. -/
theorem C6_amended_witness :
    "High School" ∈ (extract_biology_concepts
        { structOk := true, title := "", polyField := .intVal 2, exptlOk := true,
          method := "", reflnsOk := true, resField := .absent } "A").student_audience
      ↔ (("High School" ∈ (extract_biology_concepts
            { structOk := true, title := "", polyField := .intVal 1, exptlOk := true,
              method := "", reflnsOk := true, resField := .absent } "B").student_audience ∧
          "High School" ≠ "High School") ∨ "High School" = "Upper High School") :=
  C6_amended "" "" "A" "B" .absent (by decide) 2 1 (by decide) (by decide) "High School"

/-! ## Claim C10: universal concepts -/

/-- C10 counterexample.  A document whose `struct` value is malformed but
whose `polymer_entity_count` and resolution fields are absent (hence
parse without error): the title access raises first, the record comes
back with no concepts — in particular without `Protein Quaternary
Structure` — and `process_pdb_files` drops it. -/
theorem C10_counterexample :
    (extract_biology_concepts badStructDoc "7QQQ").concepts = [] ∧
    "Protein Quaternary Structure" ∉ (extract_biology_concepts badStructDoc "7QQQ").concepts ∧
    process_pdb_files [("7QQQ", some badStructDoc)] = [] := by
  decide

/-- C10 (amended).  For every record processed without any extraction
exception (readable structure/title, readable `exptl` and `reflns`
entries, entity count and resolution parsing), the concept set contains
both `Protein Quaternary Structure` and `Structure-Function
Relationship`, is non-empty, and the record is kept by
`process_pdb_files`. -/
theorem C10_universal_concepts (t m id : String) (pf : PolyField) (rf : ResField)
    (hpf : pf ≠ PolyField.malformed) (hrf : rf ≠ ResField.malformed) :
    "Protein Quaternary Structure" ∈ (extract_biology_concepts
        { structOk := true, title := t, polyField := pf, exptlOk := true,
          method := m, reflnsOk := true, resField := rf } id).concepts ∧
    "Structure-Function Relationship" ∈ (extract_biology_concepts
        { structOk := true, title := t, polyField := pf, exptlOk := true,
          method := m, reflnsOk := true, resField := rf } id).concepts ∧
    (extract_biology_concepts
        { structOk := true, title := t, polyField := pf, exptlOk := true,
          method := m, reflnsOk := true, resField := rf } id).concepts ≠ [] ∧
    ∀ fs : List PdbFile,
      process_pdb_files ((id, some ⟨true, t, pf, true, m, true, rf⟩) :: fs)
        = extract_biology_concepts
            { structOk := true, title := t, polyField := pf, exptlOk := true,
              method := m, reflnsOk := true, resField := rf } id :: process_pdb_files fs := by
  have hcc : (extract_biology_concepts
      { structOk := true, title := t, polyField := pf, exptlOk := true,
        method := m, reflnsOk := true, resField := rf } id).concepts
        = sortedSet (
            (if containsLower t "enzyme" then ["Enzyme Function"] else []) ++
            (if containsLower t "antibody" || containsLower t "immune" then
                ["Immune Response", "Protein-Ligand Binding"] else []) ++
            (if containsLower t "receptor" then
                ["Cell Signaling", "Protein Structure-Function"] else []) ++
            ["Protein Quaternary Structure"] ++
            (if strContains m "X-RAY" then ["X-ray Crystallography"]
             else if strContains m "ELECTRON" then ["Cryo-EM"]
             else if strContains m "NMR" then ["NMR Spectroscopy"]
             else []) ++
            (if resVal rf > 0 then
               "Data Quality & Resolution" ::
                 (if resVal rf < 2 then ["High-Resolution Structures"] else [])
             else []) ++
            (if containsLower t "ligand" then ["Ligand Binding", "Drug Design"] else []) ++
            (if containsLower t "dna" || containsLower t "rna" then
                ["Nucleic Acid-Protein Interactions", "Gene Expression"] else []) ++
            ["Structure-Function Relationship"]) := by
    rw [extract_eq_pipeline t m id pf rf hpf hrf, concepts_finalizeRecord,
      concepts_interactionRules, concepts_resolutionRules, concepts_methodRules,
      concepts_complexityRule, concepts_titleRules]
    simp [List.append_assoc]
  have hPQS : "Protein Quaternary Structure" ∈ (extract_biology_concepts
      { structOk := true, title := t, polyField := pf, exptlOk := true,
        method := m, reflnsOk := true, resField := rf } id).concepts := by
    rw [hcc, mem_sortedSet]; simp
  have hSFR : "Structure-Function Relationship" ∈ (extract_biology_concepts
      { structOk := true, title := t, polyField := pf, exptlOk := true,
        method := m, reflnsOk := true, resField := rf } id).concepts := by
    rw [hcc, mem_sortedSet]; simp
  have hne : (extract_biology_concepts
      { structOk := true, title := t, polyField := pf, exptlOk := true,
        method := m, reflnsOk := true, resField := rf } id).concepts ≠ [] := by
    intro h
    rw [h] at hPQS
    exact absurd hPQS (List.not_mem_nil _)
  refine ⟨hPQS, hSFR, hne, ?_⟩
  intro fs
  have hemp : (extract_biology_concepts
      { structOk := true, title := t, polyField := pf, exptlOk := true,
        method := m, reflnsOk := true, resField := rf } id).concepts.isEmpty = false := by
    rw [List.isEmpty_eq_false_iff_exists_mem]
    exact ⟨_, hPQS⟩
  simp [process_pdb_files, hemp]

/-- Witness for `C10_universal_concepts` at title `"Enzyme"`, empty
method, absent entity count and resolution, with one further file in the
batch. -/
theorem C10_witness :
    "Protein Quaternary Structure" ∈ (extract_biology_concepts
        { structOk := true, title := "Enzyme", polyField := .absent, exptlOk := true,
          method := "", reflnsOk := true, resField := .absent } "W3").concepts ∧
    "Structure-Function Relationship" ∈ (extract_biology_concepts
        { structOk := true, title := "Enzyme", polyField := .absent, exptlOk := true,
          method := "", reflnsOk := true, resField := .absent } "W3").concepts ∧
    (extract_biology_concepts
        { structOk := true, title := "Enzyme", polyField := .absent, exptlOk := true,
          method := "", reflnsOk := true, resField := .absent } "W3").concepts ≠ [] ∧
    process_pdb_files
        [("W3", some ⟨true, "Enzyme", .absent, true, "", true, .absent⟩),
         ("G2", some plainDoc)]
      = extract_biology_concepts
          { structOk := true, title := "Enzyme", polyField := .absent, exptlOk := true,
            method := "", reflnsOk := true, resField := .absent } "W3"
        :: process_pdb_files [("G2", some plainDoc)] := by
  obtain ⟨a, b, c, d⟩ :=
    C10_universal_concepts "Enzyme" "" "W3" .absent .absent (by decide) (by decide)
  exact ⟨a, b, c, d _⟩

/-! ## Claim C5: skip semantics -/

/-- C5 counterexample.  Batch of 10 documents of which the first lacks
the structure/title section and the rest are ordinary.  In the code the
missing section is *not* a parse failure: `.get('struct', {})` defaults,
the record is tagged with the two universal concepts, and all 10 records
are kept — not 9.  (No skipped-record counter exists anywhere in the
loop; its `except` clause is `pass`.) -/
theorem C5_counterexample :
    (process_pdb_files c5Batch).length = 10 ∧
    (extract_biology_concepts noStructDoc "F0").concepts
      = ["Protein Quaternary Structure", "Structure-Function Relationship"] := by
  decide

/-- `process_pdb_files` distributes over concatenation of batches. -/
theorem process_append (xs ys : List PdbFile) :
    process_pdb_files (xs ++ ys)
      = process_pdb_files xs ++ process_pdb_files ys := by
  induction xs with
  | nil => rfl
  | cons f rest ih =>
      obtain ⟨stem, od⟩ := f
      cases od with
      | none => simpa [process_pdb_files] using ih
      | some d =>
          simp only [List.cons_append, process_pdb_files]
          split <;> simp [ih]

/-- A batch whose every file loads and tags non-trivially yields one
`TaggedRecord` per file. -/
theorem process_all_good (fs : List PdbFile)
    (h : ∀ f ∈ fs, taggedOk f = true) :
    (process_pdb_files fs).length = fs.length := by
  induction fs with
  | nil => rfl
  | cons f rest ih =>
      obtain ⟨stem, od⟩ := f
      have hf := h _ (List.mem_cons_self _ _)
      have hrest := ih (fun g hg => h g (List.mem_cons_of_mem _ hg))
      cases od with
      | none => simp [taggedOk] at hf
      | some d =>
          have hd : (extract_biology_concepts d stem).concepts.isEmpty = false := by
            simpa [taggedOk] using hf
          simp [process_pdb_files, hd, hrest]

/-- C5 (amended).  For a batch in which one document fails to load
(`json.load` raises; lines 266-267 silently `pass` — the code maintains
no skipped-record counter) and every other document loads and tags
non-trivially, the pipeline completes with exactly one `TaggedRecord` per
remaining document, and the concept map is built from exactly those
records: the failing document contributes nothing. -/
theorem C5_skip_semantics (pre post : List PdbFile) (id : String)
    (h : ∀ f ∈ pre ++ post, taggedOk f = true) :
    process_pdb_files (pre ++ (id, none) :: post)
        = process_pdb_files pre ++ process_pdb_files post ∧
    (process_pdb_files (pre ++ (id, none) :: post)).length
        = pre.length + post.length ∧
    generate_concept_map (process_pdb_files (pre ++ (id, none) :: post))
        = generate_concept_map (process_pdb_files (pre ++ post)) := by
  have h1 : process_pdb_files ((id, none) :: post) = process_pdb_files post := rfl
  have e1 : process_pdb_files (pre ++ (id, none) :: post)
      = process_pdb_files pre ++ process_pdb_files post := by
    rw [process_append, h1]
  have hpre : ∀ f ∈ pre, taggedOk f = true :=
    fun f hf => h f (List.mem_append_left _ hf)
  have hpost : ∀ f ∈ post, taggedOk f = true :=
    fun f hf => h f (List.mem_append_right _ hf)
  refine ⟨e1, ?_, ?_⟩
  · rw [e1, List.length_append, process_all_good pre hpre, process_all_good post hpost]
  · rw [e1, process_append]

/-- Witness for `C5_skip_semantics`: 4 valid files, one unreadable file
`"BAD"`, then 5 valid files — 9 records come out and the concept map
equals the one built from the 9 alone. -/
theorem C5_skip_semantics_witness :
    process_pdb_files (c5Pre ++ ("BAD", none) :: c5Post)
        = process_pdb_files c5Pre ++ process_pdb_files c5Post ∧
    (process_pdb_files (c5Pre ++ ("BAD", none) :: c5Post)).length
        = c5Pre.length + c5Post.length ∧
    generate_concept_map (process_pdb_files (c5Pre ++ ("BAD", none) :: c5Post))
        = generate_concept_map (process_pdb_files (c5Pre ++ c5Post)) :=
  C5_skip_semantics c5Pre c5Post "BAD" (by decide)

/-! ## Aggregator lemmas -/

theorem sumSnd_bumpFreq (m : List (String × Nat)) (c : String) :
    ((bumpFreq m c).map Prod.snd).sum = (m.map Prod.snd).sum + 1 := by
  induction m with
  | nil => simp [bumpFreq]
  | cons p rest ih =>
      unfold bumpFreq
      split <;> simp [ih] <;> omega

theorem sumLen_addExample (m : List (String × List String)) (c id : String) :
    ((addExample m c id).map (fun p => p.2.length)).sum
      = (m.map (fun p => p.2.length)).sum + 1 := by
  induction m with
  | nil => simp [addExample]
  | cons p rest ih =>
      unfold addExample
      split <;> simp [ih] <;> omega

theorem sums_foldRecord (l : List String) (id : String) :
    ∀ st : List (String × Nat) × List (String × List String),
    (((l.foldl (fun st c => (bumpFreq st.1 c, addExample st.2 c id)) st).1).map
        Prod.snd).sum = ((st.1).map Prod.snd).sum + l.length ∧
    (((l.foldl (fun st c => (bumpFreq st.1 c, addExample st.2 c id)) st).2).map
        (fun p => p.2.length)).sum
      = ((st.2).map (fun p => p.2.length)).sum + l.length := by
  induction l with
  | nil => intro st; simp
  | cons c rest ih =>
      intro st
      simp only [List.foldl_cons, List.length_cons]
      constructor
      · rw [(ih _).1, sumSnd_bumpFreq]; omega
      · rw [(ih _).2, sumLen_addExample]; omega

theorem sums_conceptFold (records : List TaggedRecord) :
    ∀ st : List (String × Nat) × List (String × List String),
    (((records.foldl (fun st r => r.concepts.foldl
        (fun st c => (bumpFreq st.1 c, addExample st.2 c r.pdb_id)) st) st).1).map
        Prod.snd).sum
      = ((st.1).map Prod.snd).sum + (records.map (fun r => r.concepts.length)).sum ∧
    (((records.foldl (fun st r => r.concepts.foldl
        (fun st c => (bumpFreq st.1 c, addExample st.2 c r.pdb_id)) st) st).2).map
        (fun p => p.2.length)).sum
      = ((st.2).map (fun p => p.2.length)).sum
          + (records.map (fun r => r.concepts.length)).sum := by
  induction records with
  | nil => intro st; simp
  | cons r rest ih =>
      intro st
      simp only [List.foldl_cons, List.map_cons, List.sum_cons]
      constructor
      · rw [(ih _).1, (sums_foldRecord r.concepts r.pdb_id st).1]; omega
      · rw [(ih _).2, (sums_foldRecord r.concepts r.pdb_id st).2]; omega

/-- C1.  Frequency conservation: the counts accumulated by
`generate_concept_map`'s fold sum to the total number of concept
occurrences across the input records, and likewise the example lists
delivered in the resulting `ConceptIndex` carry exactly one id per
concept occurrence. -/
theorem C1_frequency_conservation (records : List TaggedRecord) :
    (((conceptFold records).1).map Prod.snd).sum
        = (records.map (fun r => r.concepts.length)).sum ∧
    ((generate_concept_map records).concept_to_examples.map
        (fun p => p.2.length)).sum
      = (records.map (fun r => r.concepts.length)).sum := by
  have hix : (generate_concept_map records).concept_to_examples
      = (conceptFold records).2 := rfl
  rw [hix]
  have h := sums_conceptFold records ([], [])
  exact ⟨by simpa using h.1, by simpa using h.2⟩

theorem findVal_bumpFreq_self (m : List (String × Nat)) (c : String) :
    findVal (bumpFreq m c) c = some ((findVal m c).getD 0 + 1) := by
  induction m with
  | nil => simp [bumpFreq, findVal]
  | cons p rest ih =>
      unfold bumpFreq
      split
      · rename_i h; simp [findVal, h]
      · rename_i h; simp [findVal, h, ih]

theorem findVal_bumpFreq_ne (m : List (String × Nat)) (c' c : String)
    (hne : c' ≠ c) : findVal (bumpFreq m c') c = findVal m c := by
  induction m with
  | nil => simp [bumpFreq, findVal, hne]
  | cons p rest ih =>
      unfold bumpFreq
      split
      · rename_i h
        have : p.1 ≠ c := by rw [h]; exact hne
        simp [findVal, this]
      · simp only [findVal, ih]

theorem findVal_addExample_self (m : List (String × List String)) (c id : String) :
    findVal (addExample m c id) c = some ((findVal m c).getD [] ++ [id]) := by
  induction m with
  | nil => simp [addExample, findVal]
  | cons p rest ih =>
      unfold addExample
      split
      · rename_i h; simp [findVal, h]
      · rename_i h; simp [findVal, h, ih]

theorem findVal_addExample_ne (m : List (String × List String)) (c' c id : String)
    (hne : c' ≠ c) : findVal (addExample m c' id) c = findVal m c := by
  induction m with
  | nil => simp [addExample, findVal, hne]
  | cons p rest ih =>
      unfold addExample
      split
      · rename_i h
        have : p.1 ≠ c := by rw [h]; exact hne
        simp [findVal, this]
      · simp only [findVal, ih]

theorem foldRecord_eq_pairs (l : List String) (id : String) :
    ∀ st : List (String × Nat) × List (String × List String),
    l.foldl (fun st c => (bumpFreq st.1 c, addExample st.2 c id)) st
      = (l.map (fun c => (c, id))).foldl pairStep st := by
  induction l with
  | nil => intro st; rfl
  | cons c rest ih => intro st; simp only [List.foldl_cons, List.map_cons, ih, pairStep]

/-- The two dictionaries of `generate_concept_map` are the fold of
`pairStep` over the flattened `(concept, pdb_id)` visit sequence. -/
theorem conceptFold_eq_pairs (records : List TaggedRecord) :
    conceptFold records = (conceptPairs records).foldl pairStep ([], []) := by
  suffices h : ∀ st, records.foldl (fun st r => r.concepts.foldl
      (fun st c => (bumpFreq st.1 c, addExample st.2 c r.pdb_id)) st) st
        = (conceptPairs records).foldl pairStep st from h ([], [])
  induction records with
  | nil => intro st; rfl
  | cons r rest ih =>
      intro st
      simp only [List.foldl_cons, conceptPairs, List.flatMap_cons, List.foldl_append,
        foldRecord_eq_pairs r.concepts r.pdb_id st]
      exact ih _

/-- Induction invariant for the paired frequency/example fold: frequency
`none` goes with example `none`, and frequency `n` goes with an example
list of length `n` all of whose ids satisfy the ambient predicate. -/
theorem pairs_fold_invariant (P : String → String → Prop)
    (pairs : List (String × String)) :
    ∀ st : List (String × Nat) × List (String × List String),
    (∀ p ∈ pairs, P p.1 p.2) →
    (∀ c, findVal st.1 c = none → findVal st.2 c = none) →
    (∀ c n, findVal st.1 c = some n →
        ∃ l, findVal st.2 c = some l ∧ l.length = n ∧ ∀ id ∈ l, P c id) →
    (∀ c, findVal (pairs.foldl pairStep st).1 c = none →
        findVal (pairs.foldl pairStep st).2 c = none) ∧
    (∀ c n, findVal (pairs.foldl pairStep st).1 c = some n →
        ∃ l, findVal (pairs.foldl pairStep st).2 c = some l ∧ l.length = n ∧
          ∀ id ∈ l, P c id) := by
  induction pairs with
  | nil => intro st _ h0 h1; exact ⟨h0, h1⟩
  | cons p rest ih =>
      intro st hp h0 h1
      simp only [List.foldl_cons]
      apply ih
      · exact fun q hq => hp q (List.mem_cons_of_mem _ hq)
      · intro c hc
        show findVal (addExample st.2 p.1 p.2) c = none
        by_cases hcc : p.1 = c
        · subst hcc
          rw [show (pairStep st p).1 = bumpFreq st.1 p.1 from rfl,
            findVal_bumpFreq_self] at hc
          exact absurd hc (by simp)
        · rw [show (pairStep st p).1 = bumpFreq st.1 p.1 from rfl,
            findVal_bumpFreq_ne st.1 p.1 c hcc] at hc
          rw [findVal_addExample_ne st.2 p.1 c p.2 hcc]
          exact h0 c hc
      · intro c n hc
        show ∃ l, findVal (addExample st.2 p.1 p.2) c = some l ∧ l.length = n ∧
          ∀ id ∈ l, P c id
        by_cases hcc : p.1 = c
        · subst hcc
          rw [show (pairStep st p).1 = bumpFreq st.1 p.1 from rfl,
            findVal_bumpFreq_self] at hc
          have hn : (findVal st.1 p.1).getD 0 + 1 = n := by
            injection hc
          refine ⟨(findVal st.2 p.1).getD [] ++ [p.2],
            findVal_addExample_self st.2 p.1 p.2, ?_, ?_⟩
          · cases hfv : findVal st.1 p.1 with
            | none =>
                have h2 := h0 _ hfv
                rw [hfv] at hn
                simp only [Option.getD_none] at hn
                simp [h2]
                omega
            | some k =>
                obtain ⟨l, hl, hlen, _⟩ := h1 _ _ hfv
                rw [hfv] at hn
                simp only [Option.getD_some] at hn
                simp [hl, hlen]
                omega
          · intro id hid
            rcases List.mem_append.mp hid with hid | hid
            · cases hfv : findVal st.2 p.1 with
              | none => rw [hfv] at hid; simp at hid
              | some l =>
                  cases hfv2 : findVal st.1 p.1 with
                  | none => rw [h0 _ hfv2] at hfv; exact absurd hfv (by simp)
                  | some k =>
                      obtain ⟨l', hl', _, hids⟩ := h1 _ _ hfv2
                      rw [hfv] at hid hl'
                      injection hl' with he
                      exact hids id (he ▸ hid)
            · rcases List.mem_singleton.mp hid with rfl
              exact hp p (List.mem_cons_self _ _)
        · rw [show (pairStep st p).1 = bumpFreq st.1 p.1 from rfl,
            findVal_bumpFreq_ne st.1 p.1 c hcc] at hc
          rw [findVal_addExample_ne st.2 p.1 c p.2 hcc]
          exact h1 c n hc

/-- C9.  Example lists match frequencies: for every concept `c` recorded
with frequency `n` by `generate_concept_map`'s fold, the
`concept_to_examples` entry of the resulting `ConceptIndex` holds a list
of exactly `n` ids, each the id of an input record whose concept list
contains `c`. -/
theorem C9_examples_match_frequency (records : List TaggedRecord)
    (c : String) (n : Nat)
    (h : findVal (conceptFold records).1 c = some n) :
    ∃ l, findVal (generate_concept_map records).concept_to_examples c = some l ∧
      l.length = n ∧
      ∀ id ∈ l, ∃ r ∈ records, r.pdb_id = id ∧ c ∈ r.concepts := by
  have hix : (generate_concept_map records).concept_to_examples
      = (conceptFold records).2 := rfl
  rw [hix, conceptFold_eq_pairs]
  rw [conceptFold_eq_pairs] at h
  refine (pairs_fold_invariant
      (fun c id => ∃ r ∈ records, r.pdb_id = id ∧ c ∈ r.concepts)
      (conceptPairs records) ([], []) ?_ ?_ ?_).2 c n h
  · intro p hp
    simp only [conceptPairs, List.mem_flatMap, List.mem_map] at hp
    obtain ⟨r, hr, c', hc', rfl⟩ := hp
    exact ⟨r, hr, rfl, hc'⟩
  · intro c hc; rfl
  · intro c n hc; simp [findVal] at hc

/-- Witness for `C9_examples_match_frequency`: one record with one
concept; its frequency is 1 and its example list is `["1ABC"]`. -/
theorem C9_witness :
    ∃ l, findVal (generate_concept_map [wRec]).concept_to_examples
        "Enzyme Function" = some l ∧
      l.length = 1 ∧
      ∀ id ∈ l, ∃ r ∈ [wRec], r.pdb_id = id ∧ "Enzyme Function" ∈ r.concepts :=
  C9_examples_match_frequency _ "Enzyme Function" 1 (by decide)

theorem mem_insertDesc (x p : String × Nat) (l : List (String × Nat)) :
    x ∈ insertDesc p l ↔ x = p ∨ x ∈ l := by
  induction l with
  | nil => simp [insertDesc]
  | cons q rest ih => unfold insertDesc; split <;> simp [ih, or_left_comm]

theorem pairwise_insertDesc (p : String × Nat) (l : List (String × Nat))
    (h : l.Pairwise (fun a b : String × Nat => b.2 ≤ a.2)) :
    (insertDesc p l).Pairwise (fun a b : String × Nat => b.2 ≤ a.2) := by
  induction l with
  | nil => simp [insertDesc]
  | cons q rest ih =>
      rw [List.pairwise_cons] at h
      unfold insertDesc
      split
      · rename_i hq
        rw [List.pairwise_cons]
        refine ⟨?_, ih h.2⟩
        intro a ha
        rcases (mem_insertDesc a p rest).mp ha with rfl | ha
        · exact le_of_lt hq
        · exact h.1 a ha
      · rename_i hq
        rw [List.pairwise_cons]
        refine ⟨?_, List.pairwise_cons.mpr h⟩
        intro a ha
        rcases List.mem_cons.mp ha with rfl | ha
        · exact not_lt.mp hq
        · exact le_trans (h.1 a ha) (not_lt.mp hq)

theorem pairwise_sortDesc (l : List (String × Nat)) :
    (sortDesc l).Pairwise (fun a b : String × Nat => b.2 ≤ a.2) := by
  induction l with
  | nil => simp [sortDesc]
  | cons p rest ih => exact pairwise_insertDesc p _ ih

theorem length_sortDesc (l : List (String × Nat)) :
    (sortDesc l).length = l.length := by
  have hins : ∀ (p : String × Nat) (l : List (String × Nat)),
      (insertDesc p l).length = l.length + 1 := by
    intro p l
    induction l with
    | nil => rfl
    | cons q rest ih => unfold insertDesc; split <;> simp [ih]
  induction l with
  | nil => rfl
  | cons p rest ih => simp [sortDesc, hins, ih]

/-- Stability at the insertion step: inserting `p` never moves it past an
entry of equal count, so the equal-count subsequence is `p` first, then
the old ones. -/
theorem filter_insertDesc (p : String × Nat) (l : List (String × Nat)) (f : Nat) :
    (insertDesc p l).filter (fun q => q.2 == f)
      = ((p :: l).filter (fun q => q.2 == f)) := by
  induction l with
  | nil => rfl
  | cons q rest ih =>
      unfold insertDesc
      split
      · rename_i hq
        by_cases hpf : p.2 = f
        · have hqf : ¬ q.2 = f := by omega
          simp only [List.filter_cons, ih]
          simp [hpf, hqf]
        · simp only [List.filter_cons, ih]
          simp [hpf]
      · rfl

/-- Stability of the whole sort: for each count `f`, the equal-count
entries come out in exactly their input order. -/
theorem filter_sortDesc (l : List (String × Nat)) (f : Nat) :
    (sortDesc l).filter (fun q => q.2 == f) = l.filter (fun q => q.2 == f) := by
  induction l with
  | nil => rfl
  | cons p rest ih =>
      show (insertDesc p (sortDesc rest)).filter _ = _
      rw [filter_insertDesc]
      simp only [List.filter_cons, ih]

theorem keys_bumpFreq (m : List (String × Nat)) (c : String) :
    (bumpFreq m c).map Prod.fst =
      if c ∈ m.map Prod.fst then m.map Prod.fst
      else m.map Prod.fst ++ [c] := by
  induction m with
  | nil => simp [bumpFreq]
  | cons p rest ih =>
      unfold bumpFreq
      split
      · rename_i h; simp [h]
      · rename_i h
        simp only [List.map_cons]
        rw [ih]
        have hne : ¬ c = p.1 := fun hc => h hc.symm
        split_ifs with h1 h2 h2 <;> simp_all [List.mem_cons]

/-- The key list of the frequency fold is the input stream's distinct
elements in first-observed order. -/
theorem keys_foldBump (stream : List String) : ∀ m : List (String × Nat),
    (stream.foldl bumpFreq m).map Prod.fst
      = m.map Prod.fst ++ dedupSeen (m.map Prod.fst) stream := by
  induction stream with
  | nil => intro m; simp [dedupSeen]
  | cons c rest ih =>
      intro m
      simp only [List.foldl_cons]
      rw [ih (bumpFreq m c), keys_bumpFreq]
      simp only [dedupSeen]
      split_ifs with h
      · rfl
      · simp

theorem fst_pairsFold (pairs : List (String × String)) :
    ∀ st : List (String × Nat) × List (String × List String),
    (pairs.foldl pairStep st).1
      = pairs.foldl (fun m p => bumpFreq m p.1) st.1 := by
  induction pairs with
  | nil => intro st; rfl
  | cons p rest ih => intro st; simp only [List.foldl_cons, pairStep, ih]

/-- The frequency dictionary is the `bumpFreq` fold over the flattened
concept stream. -/
theorem freq_eq_foldBump (records : List TaggedRecord) :
    (conceptFold records).1
      = (records.flatMap (fun r => r.concepts)).foldl bumpFreq [] := by
  rw [conceptFold_eq_pairs, fst_pairsFold]
  have hmap : (conceptPairs records).map Prod.fst
      = records.flatMap (fun r => r.concepts) := by
    simp [conceptPairs, List.map_flatMap, List.map_map, Function.comp_def]
  rw [← hmap, List.foldl_map]

/-- C2.  Ranking validity: `most_common_concepts` is non-increasing in
frequency; its length is at most `min 20 total_concepts`; and for every
frequency value `f`, its equal-frequency entries appear as a subsequence
of the distinct concepts listed in first-observed fold order, i.e. ties
are broken by first observation during the fold. -/
theorem C2_ranking_validity (records : List TaggedRecord) :
    List.Pairwise (fun p q : String × Nat => q.2 ≤ p.2)
      (generate_concept_map records).most_common_concepts ∧
    (generate_concept_map records).most_common_concepts.length
        ≤ min 20 (generate_concept_map records).total_concepts ∧
    ∀ f : Nat,
      List.Sublist
        (((generate_concept_map records).most_common_concepts.filter
            (fun p => p.2 == f)).map Prod.fst)
        (dedupSeen [] (records.flatMap (fun r => r.concepts))) := by
  have hmc : (generate_concept_map records).most_common_concepts
      = (sortDesc (conceptFold records).1).take 20 := rfl
  have htc : (generate_concept_map records).total_concepts
      = (conceptFold records).1.length := rfl
  refine ⟨?_, ?_, ?_⟩
  · rw [hmc]
    exact List.Pairwise.sublist (List.take_sublist _ _) (pairwise_sortDesc _)
  · rw [hmc, htc, List.length_take, length_sortDesc]
  · intro f
    rw [hmc]
    have hpref := List.take_prefix 20 (sortDesc (conceptFold records).1)
    have h2 := (hpref.filter (fun q => q.2 == f)).sublist
    rw [filter_sortDesc] at h2
    have h3 := h2.map Prod.fst
    have h4 := (List.filter_sublist (p := fun q : String × Nat => q.2 == f)
      ((conceptFold records).1)).map Prod.fst
    have h5 : (conceptFold records).1.map Prod.fst
        = dedupSeen [] (records.flatMap fun r => r.concepts) := by
      rw [freq_eq_foldBump, keys_foldBump]
      simp
    exact h3.trans (h5 ▸ h4)
